import Mathlib

/-!
Shallow embedding of the LinWhisper (WhisperTray) recording-session core.

The Rust sources under `src-tauri/src/` are translated definition by
definition: `modes.rs` (mode registry, builtin modes, `render_prompt`),
`providers/stt.rs` (`create_stt_provider`, the whisper.cpp segment
collection, `samples_to_wav`) and `state.rs` (`AppState` and its
operations).  Modules of the repository that are not part of the given
sources (`error.rs`, `audio.rs`, `providers/llm.rs`, `database.rs`,
`paste.rs`) are modelled from the specification where a claim depends on
them; every such definition carries a doc comment starting with
`Modelled from the spec:`.

External effects (device capture, file system, keyring, network, LLM
daemon) are represented by an explicit environment record `Env` whose
fields hold the results those collaborators would return during one
session; the embedded functions are pure state transformers over that
environment.  Machine floating point (`f32`) is modelled by `ℚ`: the
scaling/clamping/truncation logic of the WAV conversion is exact on
rationals, only rounding of the multiplication and NaN propagation are
abstracted away.
-/

/-- Modelled from the spec: `error.rs` is not among the given sources.
The variants are reconstructed from the construction sites in
`state.rs`, `modes.rs` and `providers/stt.rs` (`RecordingInProgress`,
`NoRecordingInProgress`, `ModeNotFound`, `Transcription`, `Provider`,
`Keyring`, `Config`) together with the error kinds of spec section 7;
`Device`, `Completion` and `Io` cover the failures of the audio,
LLM and file-system collaborators. -/
inductive AppError where
  | RecordingInProgress
  | NoRecordingInProgress
  | ModeNotFound (key : String)
  | Transcription (msg : String)
  | Provider (msg : String)
  | Keyring (msg : String)
  | Config (msg : String)
  | Device (msg : String)
  | Completion (msg : String)
  | Io (msg : String)
  deriving DecidableEq

/-- Recording status for the tray icon (`state.rs`, enum `RecordingStatus`). -/
inductive RecordingStatus where
  | Loading
  | Recording
  | Processing
  | Ready
  | Error
  deriving DecidableEq

/-- STT provider options (`modes.rs`, enum `SttProvider`). -/
inductive SttProvider where
  | WhisperCpp
  | WhisperServer
  | OpenAI
  | Deepgram
  | Custom (name : String)
  deriving DecidableEq

/-- LLM provider options (`modes.rs`, enum `LlmProvider`). -/
inductive LlmProvider where
  | OpenAI
  | Anthropic
  | Ollama
  | Custom (name : String)
  deriving DecidableEq

/-- Output format options (`modes.rs`, enum `OutputFormat`). -/
inductive OutputFormat where
  | Plain
  | Markdown
  deriving DecidableEq

/-- A dictation mode configuration (`modes.rs`, struct `Mode`). -/
structure Mode where
  key : String
  name : String
  description : String
  stt_provider : SttProvider
  stt_model : String
  ai_processing : Bool
  llm_provider : LlmProvider
  llm_model : String
  prompt_template : String
  output_format : OutputFormat
  builtin : Bool
  deriving DecidableEq

/-- Application settings (`state.rs`, struct `Settings`). -/
structure Settings where
  default_stt_provider : String
  default_stt_model : String
  default_llm_provider : String
  default_llm_model : String
  active_mode_key : String
  input_device : String
  auto_paste : Bool
  context_awareness : Bool
  language : String
  whisper_server_url : Option String
  deriving DecidableEq

/-- Default settings (`state.rs`, `impl Default for Settings`). -/
def Settings.default : Settings :=
  { default_stt_provider := "whispercpp"
    default_stt_model := "base.en"
    default_llm_provider := "ollama"
    default_llm_model := "llama3.2"
    active_mode_key := "voice_to_text"
    input_device := ""
    auto_paste := true
    context_awareness := false
    language := "en"
    whisper_server_url := none }

/-- Boolean test that `s` starts with the pattern `p`, on character lists. -/
def listStartsWith : List Char → List Char → Bool
  | _, [] => true
  | [], _ :: _ => false
  | c :: cs, p :: ps => c == p && listStartsWith cs ps

/-- Replace every non-overlapping occurrence of `pat` by `rep`, scanning
left to right, as `str::replace` does in Rust.  The fuel argument is the
length of the scanned list, which bounds the recursion. -/
def replaceAllAux (pat rep : List Char) : Nat → List Char → List Char
  | 0, s => s
  | fuel + 1, s =>
    match s with
    | [] => []
    | c :: cs =>
      if listStartsWith s pat then rep ++ replaceAllAux pat rep fuel (s.drop pat.length)
      else c :: replaceAllAux pat rep fuel cs

/-- String-level wrapper for `replaceAllAux`; embeds Rust `str::replace`. -/
def replaceAll (s pat rep : String) : String :=
  ⟨replaceAllAux pat.data rep.data s.data.length s.data⟩

/-- Remove leading and trailing whitespace, as Rust `str::trim` does.
Rust trims every Unicode character with the White_Space property; the
texts of this program only ever carry ASCII whitespace, for which
`Char.isWhitespace` (space, tab, carriage return, line feed) agrees. -/
def trimList (s : List Char) : List Char :=
  ((s.dropWhile Char.isWhitespace).reverse.dropWhile Char.isWhitespace).reverse

/-- String-level wrapper for `trimList`. -/
def trimStr (s : String) : String :=
  ⟨trimList s.data⟩

/-- Split `s` at the first occurrence of `pat`: returns the part before
the occurrence and the part after it, or `none` when `pat` does not
occur.  Fuel-bounded recursion. -/
def findSplit (pat : List Char) : Nat → List Char → Option (List Char × List Char)
  | 0, _ => none
  | _ + 1, [] => none
  | fuel + 1, c :: cs =>
    if listStartsWith (c :: cs) pat then some ([], (c :: cs).drop pat.length)
    else
      match findSplit pat fuel cs with
      | some (pre, post) => some (c :: pre, post)
      | none => none

/-- Remove every span from an occurrence of `openPat` up to the nearest
following occurrence of `closePat`, repeatedly and left to right.  This
embeds the effect of
`Regex::replace_all` with the non-greedy pattern
`\x7b\x7b#if context\x7d\x7d[\s\S]*?\x7b\x7b/if\x7d\x7d` used by
`render_prompt` in `modes.rs`. -/
def removeBlocksAux (openPat closePat : List Char) : Nat → List Char → List Char
  | 0, s => s
  | fuel + 1, s =>
    match findSplit openPat s.length s with
    | none => s
    | some (pre, afterOpen) =>
      match findSplit closePat afterOpen.length afterOpen with
      | none => s
      | some (_, afterClose) => pre ++ removeBlocksAux openPat closePat fuel afterClose

/-- String-level wrapper for `removeBlocksAux` with the two delimiters of
the conditional context block. -/
def removeContextBlocks (s : String) : String :=
  ⟨removeBlocksAux "\x7b\x7b#if context\x7d\x7d".data "\x7b\x7b/if\x7d\x7d".data
      s.data.length s.data⟩

/-- Render a prompt template with the given variables (`modes.rs`,
`render_prompt`).  The transcript and language placeholders are replaced
first; the conditional context block is then either unwrapped (context
present) or removed across its whole, possibly multi-line, span (context
absent).  The regex in the source is a constant pattern whose
compilation always succeeds, so the `.ok()` guard around it is elided.
The final `trim` removes leading and trailing whitespace. -/
def render_prompt (template transcript : String) (context : Option String)
    (language : String) : String :=
  let result := template
  let result := replaceAll result "\x7b\x7btranscript\x7d\x7d" transcript
  let result := replaceAll result "\x7b\x7blanguage\x7d\x7d" language
  let result :=
    match context with
    | some ctx =>
      let r := replaceAll result "\x7b\x7b#if context\x7d\x7d" ""
      let r := replaceAll r "\x7b\x7b/if\x7d\x7d" ""
      replaceAll r "\x7b\x7bcontext\x7d\x7d" ctx
    | none => removeContextBlocks result
  trimStr result

example : render_prompt "\x7b\x7btranscript\x7d\x7d / \x7b\x7blanguage\x7d\x7d" "hi" none "en" = "hi / en" := by decide
example : render_prompt "\x7b\x7b#if context\x7d\x7dC:\x7b\x7bcontext\x7d\x7d\x7b\x7b/if\x7d\x7dT:\x7b\x7btranscript\x7d\x7d" "hi" none "en" = "T:hi" := by decide
example : render_prompt "\x7b\x7b#if context\x7d\x7dC:\x7b\x7bcontext\x7d\x7d\x7b\x7b/if\x7d\x7dT:\x7b\x7btranscript\x7d\x7d" "hi" (some "ctx") "en" = "C:ctxT:hi" := by decide

/-- Environment record: the results that the external collaborators
(clipboard, audio device, file system, keyring, model download, the
whisper.cpp inference library, the HTTP transcription backend, the LLM
backend, the settings file) would return during one session.  The
embedded operations are pure state transformers over one such record. -/
structure Env where
  clipboard : Option String
  deviceStart : Except AppError Unit
  samples : List ℚ
  audioSave : Except AppError Unit
  keyring : String → Except AppError (Option String)
  ensureModel : Except AppError String
  whisperApiUrlVar : Option String
  whisperCtx : Except AppError Unit
  whisperState : Except AppError Unit
  whisperFull : Except AppError Unit
  whisperNSegments : Except AppError Unit
  whisperSegments : List (Except AppError String)
  httpTranscribe : Except AppError String
  llmCreate : Except AppError Unit
  llmComplete : String → Except AppError String
  saveSettings : Except AppError Unit

/-- Modelled from the spec: the pure artifact classifier
`isNonSpeechArtifact(segmentText)` of spec section 4.5 does not appear
anywhere in the given sources; it is reconstructed here from the words
of the spec, to be compared with what the STT path of
`providers/stt.rs` actually computes.  Fixed vocabulary of spec 4.5:
blank-audio markers in underscore and space variants, silence, music,
applause, laughter, inaudible, no-speech, no-audio. -/
def nonSpeechVocabulary : List String :=
  ["blank_audio", "blank audio", "silence", "music", "applause", "laughter",
   "inaudible", "no_speech", "no speech", "no_audio", "no audio"]

/-- Inner content of a fully bracket-wrapped text, either `[...]` or
`(...)`, and `none` when the text is not bracket-wrapped. -/
def bracketInner (t : List Char) : Option (List Char) :=
  match t with
  | '[' :: rest => if rest.getLast? == some ']' then some rest.dropLast else none
  | '(' :: rest => if rest.getLast? == some ')' then some rest.dropLast else none
  | _ => none

/-- Modelled from the spec: a segment is a non-speech artifact when its
trimmed text is empty, or is fully bracket-wrapped and the lowercased
inner content is in the fixed vocabulary (spec section 4.5). -/
def isNonSpeechArtifact (segment : String) : Bool :=
  let t := (trimStr segment).data
  if t.isEmpty then true
  else
    match bracketInner t with
    | none => false
    | some inner => nonSpeechVocabulary.contains ⟨inner.map Char.toLower⟩

example : isNonSpeechArtifact "[BLANK_AUDIO]" = true := by decide
example : isNonSpeechArtifact "[blank audio]" = true := by decide
example : isNonSpeechArtifact "(music)" = true := by decide
example : isNonSpeechArtifact "[custom tag]" = false := by decide
example : isNonSpeechArtifact "" = true := by decide
example : isNonSpeechArtifact "I like music" = false := by decide

/-- Segment collection loop of `WhisperCppProvider::transcribe`
(`providers/stt.rs`): each successfully fetched segment text is pushed
onto the accumulator, a failed fetch is skipped, and the accumulated
text is trimmed.  No other transformation is applied to the segments. -/
def collect_segments (segs : List (Except AppError String)) : String :=
  trimStr (segs.foldl
    (fun acc r =>
      match r with
      | .ok segment => acc ++ segment
      | .error _ => acc)
    "")

/-- The text of a successfully fetched segment, `none` for a failed
fetch; used to restate `collect_segments` independently. -/
def okSegmentText : Except AppError String → Option String
  | .ok segment => some segment
  | .error _ => none

/-- Clamp on rationals, as Rust `f32::clamp`: values below `lo` become
`lo`, values above `hi` become `hi`. -/
def clampQ (x lo hi : ℚ) : ℚ :=
  if x < lo then lo else if x > hi then hi else x

/-- Truncation toward zero, the behavior of a Rust `as i16` cast applied
to a floating-point value that already lies inside the target range. -/
def truncQ (q : ℚ) : ℤ :=
  if 0 ≤ q then ⌊q⌋ else ⌈q⌉

/-- One sample of the PCM conversion in `samples_to_wav`
(`providers/stt.rs`): the sample is scaled by `i16::MAX = 32767`,
clamped into `[i16::MIN, i16::MAX] = [-32768, 32767]`, and cast to a
16-bit integer.  `f32` is modelled by `ℚ`; the rounding of the
multiplication and NaN inputs are abstracted, the scaling, clamping and
truncation logic is exact. -/
def sampleAmplitude (sample : ℚ) : ℤ :=
  truncQ (clampQ (sample * 32767) (-32768) 32767)

/-- WAV conversion loop of `samples_to_wav` (`providers/stt.rs`): every
sample is converted by `sampleAmplitude` and written in order.  The
result is the list of written PCM samples; the RIFF container bytes
around them, produced by the `hound` library, are not modelled. -/
def samples_to_wav (samples : List ℚ) : List ℤ :=
  samples.foldl (fun acc sample => acc ++ [sampleAmplitude sample]) []

/-- A constructed STT provider handle (`providers/stt.rs`): either the
local whisper.cpp provider holding a model path, or an OpenAI-compatible
HTTP provider holding base URL, optional API key, model and name. -/
inductive SttProviderHandle where
  | whisperCpp (model_path : String)
  | openAiCompatible (base_url : String) (api_key : Option String)
      (model : String) (name : String)
  deriving DecidableEq

/-- Provider construction `create_stt_provider` (`providers/stt.rs`).
The local path downloads the model if absent (`ensure_model`, an
external effect); the self-hosted path falls back from the configured
URL to the `WHISPER_API_URL` variable and then to a localhost default;
the cloud OpenAI path fails without an API key before any handle (and
hence any network call) exists; Deepgram and custom names fail fast. -/
def create_stt_provider (env : Env) (provider_type : SttProvider) (model : String)
    (api_key : Option String) (server_url : Option String) :
    Except AppError SttProviderHandle :=
  match provider_type with
  | .WhisperCpp =>
    match env.ensureModel with
    | .error e => .error e
    | .ok model_path => .ok (.whisperCpp model_path)
  | .WhisperServer =>
    let base_url := (server_url.or env.whisperApiUrlVar).getD "http://localhost:8000"
    .ok (.openAiCompatible base_url none model "Self-hosted Whisper")
  | .OpenAI =>
    match api_key with
    | none => .error (.Provider "OpenAI STT requires an API key. Add it in Settings.")
    | some key =>
      .ok (.openAiCompatible "https://api.openai.com" (some key) model "OpenAI Cloud")
  | .Deepgram => .error (.Provider "Deepgram not yet implemented")
  | .Custom name => .error (.Provider ("Unknown provider: " ++ name))

/-- Transcription on the local whisper.cpp provider
(`WhisperCppProvider::transcribe` in `providers/stt.rs`): context
creation, state creation and the inference run each may fail with a
`Transcription` error; then the recognized segments are collected by
`collect_segments`.  The `spawn_blocking` join, which fails only when
the runtime task panics, is not modelled. -/
def whisperCpp_transcribe (env : Env) : Except AppError String :=
  match env.whisperCtx with
  | .error e => .error e
  | .ok _ =>
    match env.whisperState with
    | .error e => .error e
    | .ok _ =>
      match env.whisperFull with
      | .error e => .error e
      | .ok _ =>
        match env.whisperNSegments with
        | .error e => .error e
        | .ok _ => .ok (collect_segments env.whisperSegments)

/-- Transcription on a constructed handle: the local provider runs the
whisper.cpp pipeline; the OpenAI-compatible provider converts the
samples to WAV and sends them to the backend
(`OpenAiCompatibleSttProvider::transcribe` in `providers/stt.rs`),
returning the trimmed text of a successful response. -/
def run_transcribe (env : Env) (handle : SttProviderHandle) (samples : List ℚ) :
    Except AppError String :=
  match handle with
  | .whisperCpp _ =>
    let _ := samples
    whisperCpp_transcribe env
  | .openAiCompatible _ _ _ _ =>
    let _ := samples_to_wav samples
    match env.httpTranscribe with
    | .error e => .error e
    | .ok text => .ok (trimStr text)

/-- Association-list registry standing in for the `HashMap<String, Mode>`
of the Rust sources.  `HashMap::insert` replaces the binding of an
existing key; consing onto the front realizes the same `lookup`
semantics, which is the only observation the embedded claims use. -/
def insertMode (m : List (String × Mode)) (key : String) (mode : Mode) :
    List (String × Mode) :=
  (key, mode) :: m

/-- Built-in modes (`modes.rs`, `create_builtin_modes`), with their full
prompt templates. -/
def create_builtin_modes : List Mode :=
  [ { key := "voice_to_text"
      name := "Voice to Text"
      description := "Simple voice transcription without AI processing"
      stt_provider := .WhisperCpp
      stt_model := "base.en"
      ai_processing := false
      llm_provider := .Ollama
      llm_model := ""
      prompt_template := ""
      output_format := .Plain
      builtin := true }
  , { key := "message"
      name := "Message"
      description := "Short casual message, cleaned up for chat/SMS"
      stt_provider := .WhisperCpp
      stt_model := "base.en"
      ai_processing := true
      llm_provider := .Ollama
      llm_model := "llama3.2"
      prompt_template := "You are a helpful assistant that cleans up voice transcriptions into short, casual messages suitable for chat or SMS.\n\nInstructions:\n- Fix any transcription errors or unclear words\n- Remove filler words (um, uh, like, you know)\n- Keep the casual, conversational tone\n- Keep it concise\n- Do not add any preamble or explanation, just output the cleaned message\n\n\x7b\x7b#if context\x7d\x7d\nContext (for reference only):\n\x7b\x7bcontext\x7d\x7d\n\x7b\x7b/if\x7d\x7d\n\nTranscript to clean up:\n\x7b\x7btranscript\x7d\x7d\n\nCleaned message:"
      output_format := .Plain
      builtin := true }
  , { key := "email"
      name := "Email"
      description := "Format transcription as a professional email with subject and body"
      stt_provider := .WhisperCpp
      stt_model := "base.en"
      ai_processing := true
      llm_provider := .Ollama
      llm_model := "llama3.2"
      prompt_template := "You are a helpful assistant that converts voice transcriptions into professional emails.\n\nInstructions:\n- Create a clear, professional email from the spoken content\n- Include a concise subject line\n- Structure the body with proper greeting, content, and sign-off\n- Fix any transcription errors\n- Maintain a professional but friendly tone\n- Format as:\n  Subject: [subject]\n\n  [body]\n\n\x7b\x7b#if context\x7d\x7d\nContext (for reference only):\n\x7b\x7bcontext\x7d\x7d\n\x7b\x7b/if\x7d\x7d\n\nTranscript:\n\x7b\x7btranscript\x7d\x7d\n\nEmail:"
      output_format := .Plain
      builtin := true }
  , { key := "note"
      name := "Note"
      description := "Convert transcription into organized bullet points"
      stt_provider := .WhisperCpp
      stt_model := "base.en"
      ai_processing := true
      llm_provider := .Ollama
      llm_model := "llama3.2"
      prompt_template := "You are a helpful assistant that converts voice transcriptions into organized notes.\n\nInstructions:\n- Extract key points from the transcription\n- Organize into clear bullet points\n- Group related items together\n- Fix any transcription errors\n- Be concise but capture all important information\n\n\x7b\x7b#if context\x7d\x7d\nContext (for reference only):\n\x7b\x7bcontext\x7d\x7d\n\x7b\x7b/if\x7d\x7d\n\nTranscript:\n\x7b\x7btranscript\x7d\x7d\n\nNotes:"
      output_format := .Markdown
      builtin := true }
  , { key := "meeting"
      name := "Meeting"
      description := "Create meeting summary with key points and action items"
      stt_provider := .WhisperCpp
      stt_model := "base.en"
      ai_processing := true
      llm_provider := .Ollama
      llm_model := "llama3.2"
      prompt_template := "You are a helpful assistant that creates meeting summaries from transcriptions.\n\nInstructions:\n- Create a structured meeting summary\n- Include:\n  - Brief overview (2-3 sentences)\n  - Key discussion points\n  - Decisions made\n  - Action items (with owners if mentioned)\n- Fix any transcription errors\n- Be concise but comprehensive\n\n\x7b\x7b#if context\x7d\x7d\nContext (for reference only):\n\x7b\x7bcontext\x7d\x7d\n\x7b\x7b/if\x7d\x7d\n\nTranscript:\n\x7b\x7btranscript\x7d\x7d\n\nMeeting Summary:"
      output_format := .Markdown
      builtin := true }
  , { key := "super"
      name := "Super"
      description := "Adaptive mode that intelligently formats based on content"
      stt_provider := .WhisperCpp
      stt_model := "base.en"
      ai_processing := true
      llm_provider := .Ollama
      llm_model := "llama3.2"
      prompt_template := "You are a helpful assistant that intelligently processes voice transcriptions.\n\nInstructions:\n- Analyze the content and determine the best output format\n- If it is a question, provide a helpful answer\n- If it is a task or reminder, format it clearly\n- If it is a message, clean it up appropriately\n- If it is notes or ideas, organize them logically\n- If it is code-related, format appropriately with any relevant syntax\n- Fix any transcription errors\n- Output only the processed result, no explanation\n\n\x7b\x7b#if context\x7d\x7d\nContext (for reference only):\n\x7b\x7bcontext\x7d\x7d\n\x7b\x7b/if\x7d\x7d\n\nTranscript:\n\x7b\x7btranscript\x7d\x7d\n\nOutput:"
      output_format := .Plain
      builtin := true }
  ]

/-- Contents of the on-disk modes directory as the loader sees them:
whether the directory exists, the traversal outcome with the per-file
parse result of every `.json` entry in directory order, and the outcome
of writing the built-in modes back when the directory is first created. -/
structure ModesDisk where
  dirExists : Bool
  entries : Except AppError (List (Except AppError Mode))
  writeBack : Except AppError Unit

/-- Registry loading (`modes.rs`, `load_modes`): the built-in modes are
inserted first, then every successfully parsed custom mode file is
inserted over them (a file that fails to parse is logged and skipped,
a directory traversal failure propagates); when the directory does not
exist it is created and the built-ins are saved to it (a write failure
propagates). -/
def Modes.load_modes (d : ModesDisk) : Except AppError (List (String × Mode)) :=
  let base := create_builtin_modes.foldl (fun m mode => insertMode m mode.key mode) []
  if d.dirExists then
    match d.entries with
    | .error e => .error e
    | .ok entries =>
      .ok (entries.foldl
        (fun m r =>
          match r with
          | .ok mode => insertMode m mode.key mode
          | .error _ => m)
        base)
  else
    match d.writeBack with
    | .error e => .error e
    | .ok _ => .ok base

/-- Main application state (`state.rs`, struct `AppState`).  The Tauri
app handle and the database connection carry no session-relevant state
and are omitted; the `RecordingHandle` is represented by its observable
flag `recording` (`RecordingHandle::is_recording`). -/
structure AppState where
  status : RecordingStatus
  modes : List (String × Mode)
  active_mode_key : String
  recording : Bool
  settings : Settings
  last_context : Option String
  deriving DecidableEq

/-- State construction (`state.rs`, `AppState::new`): settings are read
from disk (or defaulted), the status starts at `Loading`, the registry
is empty, and the active mode key is copied from the settings. -/
def AppState.new (settings : Settings) : AppState :=
  { status := .Loading
    modes := []
    active_mode_key := settings.active_mode_key
    recording := false
    settings := settings
    last_context := none }

/-- Registry load into the state (`state.rs`, `AppState::load_modes`):
on success the loaded registry is installed, a saved active key that no
longer resolves is replaced by `voice_to_text`, and the status becomes
`Ready`; on failure the error propagates and the state is unchanged. -/
def AppState.load_modes (d : ModesDisk) (s : AppState) :
    Except AppError Unit × AppState :=
  match Modes.load_modes d with
  | .error e => (.error e, s)
  | .ok modes =>
    let s := { s with modes := modes }
    let s :=
      if (s.modes.lookup s.active_mode_key).isNone then
        { s with active_mode_key := "voice_to_text" }
      else s
    (.ok (), { s with status := .Ready })

/-- Active mode lookup (`state.rs`, `AppState::get_active_mode`). -/
def AppState.get_active_mode (s : AppState) : Option Mode :=
  s.modes.lookup s.active_mode_key

/-- Check whether recording is in progress (`state.rs`,
`AppState::is_recording`), which reads the recording handle flag. -/
def AppState.is_recording (s : AppState) : Bool :=
  s.recording

deriving instance DecidableEq for Except

/-- Outcome of `AppState::set_active_mode`: the returned result, the new
state, and the settings written to disk (`none` when nothing was
persisted). -/
structure SetModeOut where
  res : Except AppError Unit
  state : AppState
  wrote : Option Settings
  deriving DecidableEq

/-- Active mode switch (`state.rs`, `AppState::set_active_mode`): a key
absent from the registry fails with `ModeNotFound` before any mutation;
a present key updates the in-memory active key and the settings copy of
it, then persists the settings. -/
def AppState.set_active_mode (env : Env) (key : String) (s : AppState) : SetModeOut :=
  if (s.modes.lookup key).isNone then
    ⟨.error (.ModeNotFound key), s, none⟩
  else
    let s := { s with
      active_mode_key := key
      settings := { s.settings with active_mode_key := key } }
    match env.saveSettings with
    | .error e => ⟨.error e, s, none⟩
    | .ok _ => ⟨.ok (), s, some s.settings⟩

/-- Start of a recording (`state.rs`,
`AppState::start_recording_with_callback`; `start_recording` forwards
here with no callback): an active recording fails with
`RecordingInProgress` before any mutation; otherwise the clipboard is
snapshot when context awareness is enabled, the audio capture is
started, and on success the handle records and the status becomes
`Recording`.  Modelled from the spec: `audio.rs` is not among the given
sources; per spec section 4.2, `startCapture` opens the input device and
begins buffering, failing with `DeviceError` when the device cannot be
opened, in which case no capture is active. -/
def AppState.start_recording_with_callback (env : Env) (s : AppState) :
    Except AppError Unit × AppState :=
  if s.is_recording then
    (.error .RecordingInProgress, s)
  else
    let s :=
      if s.settings.context_awareness then { s with last_context := env.clipboard }
      else s
    match env.deviceStart with
    | .error e => (.error e, s)
    | .ok _ => (.ok (), { s with recording := true, status := .Recording })

/-- Recording cancellation (`state.rs`, `AppState::cancel_recording`):
the handle flag is cleared and the status becomes `Ready`. -/
def AppState.cancel_recording (s : AppState) : AppState :=
  { s with recording := false, status := .Ready }

/-- API key lookup for an LLM provider (`state.rs`,
`AppState::get_api_key`): OpenAI and Anthropic read the keyring entry of
their key name (absence of the entry is `none`, a keyring failure is an
error); Ollama and custom providers need no key. -/
def AppState.get_api_key (env : Env) (provider : LlmProvider) :
    Except AppError (Option String) :=
  match provider with
  | .OpenAI => env.keyring "openai_api_key"
  | .Anthropic => env.keyring "anthropic_api_key"
  | .Ollama => .ok none
  | .Custom _ => .ok none

/-- API key lookup for an STT provider (`state.rs`,
`AppState::get_stt_api_key`): OpenAI reuses the LLM OpenAI key name,
Deepgram has its own; the local, self-hosted and custom providers need
no key. -/
def AppState.get_stt_api_key (env : Env) (provider : SttProvider) :
    Except AppError (Option String) :=
  match provider with
  | .OpenAI => env.keyring "openai_api_key"
  | .Deepgram => env.keyring "deepgram_api_key"
  | .WhisperCpp => .ok none
  | .WhisperServer => .ok none
  | .Custom _ => .ok none

/-- Transcription of the captured samples (`state.rs`,
`AppState::transcribe`): the STT API key is looked up, the provider is
constructed from the mode with the configured whisper server URL, and
the provider transcribes the samples in the configured language. -/
def AppState.transcribe (env : Env) (s : AppState) (samples : List ℚ) (mode : Mode) :
    Except AppError String :=
  match AppState.get_stt_api_key env mode.stt_provider with
  | .error e => .error e
  | .ok api_key =>
    match create_stt_provider env mode.stt_provider mode.stt_model api_key
        s.settings.whisper_server_url with
    | .error e => .error e
    | .ok provider => run_transcribe env provider samples

/-- LLM post-processing (`state.rs`, `AppState::process_with_llm`): the
LLM API key is looked up, the provider is constructed, the prompt is
rendered from the mode template with the transcript, the last captured
context and the configured language, and the provider completes it.
Modelled from the spec: `providers/llm.rs` is not among the given
sources; per spec section 4.3, construction by provider kind may fail
fast (`UnsupportedProvider`) and `complete(prompt)` returns generated
text or fails (`CompletionFailed`); both outcomes are environment
fields. -/
def AppState.process_with_llm (env : Env) (s : AppState) (transcript : String)
    (mode : Mode) : Except AppError String :=
  match AppState.get_api_key env mode.llm_provider with
  | .error e => .error e
  | .ok _ =>
    match env.llmCreate with
    | .error e => .error e
    | .ok _ =>
      let prompt := render_prompt mode.prompt_template transcript
          s.last_context s.settings.language
      env.llmComplete prompt

/-- Processing pipeline (`state.rs`, `AppState::process_recording`): the
active mode is looked up (`ModeNotFound` on failure), the audio is saved
to a fresh WAV file (directory creation and `save_wav` are the external
`audioSave` effect), the samples are transcribed, and when the mode
enables AI processing with a non-empty template the transcript is passed
through the LLM — a failed LLM call is logged and the raw transcript is
substituted.  The history insert and the clipboard/paste delivery have
their results discarded in the source (`let _ = ...`) and carry no
session state.  On success the status becomes `Ready` and the final
output is returned. -/
def AppState.process_recording (env : Env) (samples : List ℚ) (s : AppState) :
    Except AppError String × AppState :=
  match s.get_active_mode with
  | none => (.error (.ModeNotFound s.active_mode_key), s)
  | some mode =>
    match env.audioSave with
    | .error e => (.error e, s)
    | .ok _ =>
      match AppState.transcribe env s samples mode with
      | .error e => (.error e, s)
      | .ok transcript =>
        let output :=
          if mode.ai_processing && !mode.prompt_template.isEmpty then
            match AppState.process_with_llm env s transcript mode with
            | .ok result => result
            | .error _ => transcript
          else transcript
        (.ok output, { s with status := .Ready })

/-- The state in which the processing pipeline runs during `stop()`:
capture has ended (modelled from the spec: `stopCapture` of spec section
4.2 flushes and returns the buffer, ending the capture; it fails only
with `NotCapturing`, which the guard in `stop_recording` excludes) and
the status has been set to `Processing`. -/
def AppState.stopMid (s : AppState) : AppState :=
  { s with recording := false, status := .Processing }

/-- Stop of a recording (`state.rs`, `AppState::stop_recording`): with
no active recording it fails with `NoRecordingInProgress` before any
mutation; otherwise capture ends, the status becomes `Processing`, the
pipeline runs on the buffered samples, and on a pipeline failure the
status is reset to `Ready` while the error is returned. -/
def AppState.stop_recording (env : Env) (s : AppState) :
    Except AppError String × AppState :=
  if !s.is_recording then
    (.error .NoRecordingInProgress, s)
  else
    match AppState.process_recording env env.samples s.stopMid with
    | (.error e, s) => (.error e, { s with status := .Ready })
    | (.ok output, s) => (.ok output, s)

/-- The pipeline either leaves the state untouched (every failure path)
or only sets the status to `Ready` (the success path). -/
theorem process_recording_state (env : Env) (samples : List ℚ) (s : AppState) :
    (AppState.process_recording env samples s).2 = s ∨
    (AppState.process_recording env samples s).2 = { s with status := .Ready } := by
  cases hm : s.get_active_mode with
  | none => simp [AppState.process_recording, hm]
  | some mode =>
    cases ha : env.audioSave with
    | error e => simp [AppState.process_recording, hm, ha]
    | ok u =>
      cases ht : AppState.transcribe env s samples mode with
      | error e => simp [AppState.process_recording, hm, ha, ht]
      | ok t => simp [AppState.process_recording, hm, ha, ht]

/-- When the pipeline succeeds the returned state is the input state
with status `Ready`. -/
theorem process_recording_ok_state (env : Env) (samples : List ℚ) (s : AppState)
    (out : String) (s2 : AppState)
    (h : AppState.process_recording env samples s = (.ok out, s2)) :
    s2 = { s with status := .Ready } := by
  cases hm : s.get_active_mode with
  | none => simp [AppState.process_recording, hm] at h
  | some mode =>
    cases ha : env.audioSave with
    | error e => simp [AppState.process_recording, hm, ha] at h
    | ok u =>
      cases ht : AppState.transcribe env s samples mode with
      | error e => simp [AppState.process_recording, hm, ha, ht] at h
      | ok t =>
        simp [AppState.process_recording, hm, ha, ht] at h
        exact h.2.symm

/-- With a recording in progress, `stop_recording` always hands back the
state with the capture ended and status `Ready`, on success and on every
pipeline failure alike. -/
theorem stop_recording_state (env : Env) (s : AppState) (h : s.recording = true) :
    (AppState.stop_recording env s).2 = { s with recording := false, status := .Ready } := by
  have hrec : s.is_recording = true := h
  unfold AppState.stop_recording
  rw [hrec]
  simp only [Bool.not_true, Bool.false_eq_true, if_false]
  cases hp : AppState.process_recording env env.samples s.stopMid with
  | mk r s2 =>
    cases r with
    | error e =>
      have := process_recording_state env env.samples s.stopMid
      rw [hp] at this
      rcases this with h2 | h2 <;> simp_all [AppState.stopMid]
    | ok out =>
      have := process_recording_ok_state env env.samples s.stopMid out s2 hp
      simp_all [AppState.stopMid]

/-- With a recording in progress, `stop_recording` returns exactly what
the pipeline returned. -/
theorem stop_recording_result (env : Env) (s : AppState) (h : s.recording = true) :
    (AppState.stop_recording env s).1 =
      (AppState.process_recording env env.samples s.stopMid).1 := by
  have hrec : s.is_recording = true := h
  unfold AppState.stop_recording
  rw [hrec]
  simp only [Bool.not_true, Bool.false_eq_true, if_false]
  cases hp : AppState.process_recording env env.samples s.stopMid with
  | mk r s2 => cases r <;> simp

/-- One session-affecting operation of the command surface after
startup.  After `setup` in `lib.rs` completes, the operations that reach
the state are the Tauri commands and the tray/hotkey handlers
(`commands.rs`, `tray.rs`, `hotkey.rs`): start, stop, cancel, switching
the active mode, replacing the settings (`update_settings`) and
selecting the input device (`set_input_device`).  All of them run under
the one state mutex, so a trace of them is the sequential history of the
controller. -/
inductive Step : AppState → AppState → Prop where
  | start (env : Env) (s : AppState) :
      Step s (AppState.start_recording_with_callback env s).2
  | stop (env : Env) (s : AppState) :
      Step s (AppState.stop_recording env s).2
  | cancel (s : AppState) :
      Step s s.cancel_recording
  | setMode (env : Env) (key : String) (s : AppState) :
      Step s (AppState.set_active_mode env key s).state
  | updateSettings (newSettings : Settings) (s : AppState) :
      Step s { s with settings := newSettings }
  | setDevice (device : String) (s : AppState) :
      Step s { s with settings := { s.settings with input_device := device } }

/-- States of the session controller: freshly constructed state with the
one startup `load_modes` applied (run once from `setup` in `lib.rs`,
whether it succeeded or failed), followed by any trace of operations. -/
inductive Reachable : AppState → Prop where
  | boot (settings : Settings) (d : ModesDisk) :
      Reachable ((AppState.new settings).load_modes d).2
  | step {s t : AppState} : Reachable s → Step s t → Reachable t

/-- Correspondence between the recording handle flag and the status: the
handle records exactly in status `Recording`, and `Processing` exists
only inside `stop()` — it is never the resting status between two
operations. -/
def StateInv (s : AppState) : Prop :=
  (s.recording = true ↔ s.status = RecordingStatus.Recording) ∧
    s.status ≠ RecordingStatus.Processing

/-- The startup `load_modes` never touches the handle flag and leaves
the status at its previous value or `Ready`. -/
theorem load_modes_state (d : ModesDisk) (s : AppState) :
    (AppState.load_modes d s).2.recording = s.recording ∧
      ((AppState.load_modes d s).2.status = s.status ∨
        (AppState.load_modes d s).2.status = RecordingStatus.Ready) := by
  cases hl : Modes.load_modes d with
  | error e => simp [AppState.load_modes, hl]
  | ok modes =>
    by_cases hk : (modes.lookup s.active_mode_key).isNone <;>
      simp [AppState.load_modes, hl, hk]

/-- Every reachable state satisfies the handle/status correspondence. -/
theorem reachable_StateInv (s : AppState) (h : Reachable s) : StateInv s := by
  induction h with
  | boot settings d =>
    have hs := load_modes_state d (AppState.new settings)
    constructor
    · rw [hs.1]
      constructor
      · intro hrec
        exact absurd hrec (by simp [AppState.new])
      · intro hst
        rcases hs.2 with h2 | h2 <;> rw [h2] at hst <;> simp [AppState.new] at hst
    · intro hst
      rcases hs.2 with h2 | h2 <;> rw [h2] at hst <;> simp [AppState.new] at hst
  | step hr hstep ih =>
    rename_i s t
    cases hstep with
    | start env s =>
      by_cases hrec : s.recording
      · have : s.is_recording = true := hrec
        simp only [AppState.start_recording_with_callback, this, if_true]
        exact ih
      · have hrecF : s.recording = false := by simpa using hrec
        have : s.is_recording = false := hrecF
        simp only [AppState.start_recording_with_callback, this, Bool.false_eq_true, if_false]
        cases hd : env.deviceStart with
        | error e =>
          by_cases hc : s.settings.context_awareness <;>
            · simp only [hc, if_true, if_false, hd]
              constructor
              · constructor
                · intro hx; simp [hrecF] at hx
                · intro hx
                  exact absurd (ih.1.2 hx) (by simp [hrecF])
              · exact ih.2
        | ok u =>
          by_cases hc : s.settings.context_awareness <;> simp [StateInv, hc, hd]
    | stop env s =>
      by_cases hrec : s.recording
      · rw [stop_recording_state env s hrec]
        constructor
        · constructor
          · intro hx; simp at hx
          · intro hx; simp at hx
        · simp
      · have hrecF : s.recording = false := by simpa using hrec
        have : s.is_recording = false := hrecF
        simp only [AppState.stop_recording, this, Bool.not_false, if_true]
        exact ih
    | cancel s =>
      constructor
      · constructor
        · intro hx; simp [AppState.cancel_recording] at hx
        · intro hx; simp [AppState.cancel_recording] at hx
      · simp [AppState.cancel_recording]
    | setMode env key s =>
      by_cases hk : (s.modes.lookup key).isNone
      · simp only [AppState.set_active_mode, hk, if_true]
        exact ih
      · simp only [AppState.set_active_mode, hk, if_false]
        cases hw : env.saveSettings <;> simp only [] <;> exact ih
    | updateSettings newSettings s => exact ih
    | setDevice device s => exact ih

/-- Disk contents for a first run: the modes directory does not exist
yet and writing the built-ins back succeeds. -/
def disk0 : ModesDisk :=
  { dirExists := false, entries := .ok [], writeBack := .ok () }

/-- Environment in which every collaborator succeeds, the one recognized
segment is ` hello`, and the LLM backend is down. -/
def env0 : Env :=
  { clipboard := none
    deviceStart := .ok ()
    samples := []
    audioSave := .ok ()
    keyring := fun _ => .ok none
    ensureModel := .ok "/data/models/ggml-base.en.bin"
    whisperApiUrlVar := none
    whisperCtx := .ok ()
    whisperState := .ok ()
    whisperFull := .ok ()
    whisperNSegments := .ok ()
    whisperSegments := [.ok " hello"]
    httpTranscribe := .ok "hello"
    llmCreate := .ok ()
    llmComplete := fun _ => .error (.Completion "connection refused")
    saveSettings := .ok () }

/-- The controller state right after a successful first boot. -/
def s0 : AppState :=
  ((AppState.new Settings.default).load_modes disk0).2

/-- A plain transcription mode without AI processing. -/
def modePlain : Mode :=
  { key := "voice_to_text"
    name := "Voice to Text"
    description := "Simple voice transcription without AI processing"
    stt_provider := .WhisperCpp
    stt_model := "base.en"
    ai_processing := false
    llm_provider := .Ollama
    llm_model := ""
    prompt_template := ""
    output_format := .Plain
    builtin := true }

/-- A mode with AI post-processing enabled and a non-empty template. -/
def modeAi : Mode :=
  { key := "m"
    name := "M"
    description := "post-processing mode"
    stt_provider := .WhisperCpp
    stt_model := "base.en"
    ai_processing := true
    llm_provider := .Ollama
    llm_model := "llama3.2"
    prompt_template := "Clean: \x7b\x7btranscript\x7d\x7d"
    output_format := .Plain
    builtin := false }

/-- A controller state with a recording in progress under `modePlain`. -/
def recStateVt : AppState :=
  { status := .Recording
    modes := [("voice_to_text", modePlain)]
    active_mode_key := "voice_to_text"
    recording := true
    settings := Settings.default
    last_context := none }

/-- A controller state with a recording in progress under `modeAi`. -/
def recStateAi : AppState :=
  { status := .Recording
    modes := [("m", modeAi)]
    active_mode_key := "m"
    recording := true
    settings := Settings.default
    last_context := none }

/-- Environment in which the whisper.cpp context creation fails. -/
def envCtxFail : Env :=
  { env0 with whisperCtx := .error (.Transcription "Failed to create context: load failed") }

/-- Environment in which transcription recognizes no segments at all. -/
def envNoSpeech : Env :=
  { env0 with whisperSegments := [] }

/-- C1, counterexample: a pipeline failure (whisper.cpp context creation
fails) during `stop()` leaves the status at `Ready`, not `Error` — the
claimed transition to `Error` on pipeline failure does not happen; the
error itself is returned to the caller. -/
theorem stop_failure_status_counterexample :
    (AppState.stop_recording envCtxFail recStateVt).1 =
        .error (.Transcription "Failed to create context: load failed") ∧
    (AppState.stop_recording envCtxFail recStateVt).2.status = RecordingStatus.Ready ∧
    RecordingStatus.Ready ≠ RecordingStatus.Error := by
  decide

/-- C1, amended: for every invocation of `stop()` whose precondition
holds, once the pipeline concludes the status transitions to `Ready` on
success and likewise to `Ready` (not `Error`) on any pipeline failure,
and the pipeline result — in the failure case the error — is returned
to the caller verbatim. -/
theorem stop_concludes_Ready (env : Env) (s : AppState) (h : s.recording = true) :
    (AppState.stop_recording env s).2.status = RecordingStatus.Ready ∧
    (AppState.stop_recording env s).1 =
      (AppState.process_recording env env.samples s.stopMid).1 :=
  ⟨by rw [stop_recording_state env s h], stop_recording_result env s h⟩

/-- C1, witness: the amended statement applied to a concrete recording
state and a concrete environment. -/
theorem stop_concludes_Ready_witness :
    (AppState.stop_recording env0 recStateVt).2.status = RecordingStatus.Ready :=
  (stop_concludes_Ready env0 recStateVt rfl).1

/-- C2: on every reachable controller state, `stop()` while the status
is `Ready`, `Loading` or `Error` fails with `NoRecordingInProgress`
leaving the state unchanged, and `start()` while the status is
`Recording` or `Processing` fails with `RecordingInProgress` leaving the
state unchanged. -/
theorem stop_start_precondition_failures (s : AppState) (h : Reachable s) (env : Env) :
    ((s.status = RecordingStatus.Ready ∨ s.status = RecordingStatus.Loading ∨
        s.status = RecordingStatus.Error) →
      AppState.stop_recording env s = (.error .NoRecordingInProgress, s)) ∧
    ((s.status = RecordingStatus.Recording ∨ s.status = RecordingStatus.Processing) →
      AppState.start_recording_with_callback env s = (.error .RecordingInProgress, s)) := by
  have hinv := reachable_StateInv s h
  constructor
  · intro hst
    have hne : s.status ≠ RecordingStatus.Recording := by
      rcases hst with h1 | h1 | h1 <;> rw [h1] <;> simp
    have hrecF : s.recording = false := by
      cases hrec : s.recording
      · rfl
      · exact absurd (hinv.1.1 hrec) hne
    have hisF : s.is_recording = false := hrecF
    simp [AppState.stop_recording, hisF]
  · intro hst
    rcases hst with h1 | h1
    · have hrec : s.recording = true := hinv.1.2 h1
      have hisT : s.is_recording = true := hrec
      simp [AppState.start_recording_with_callback, hisT]
    · exact absurd h1 hinv.2

/-- C2, witness: the freshly booted state is reachable, its status is
`Ready`, and `stop()` on it fails with `NoRecordingInProgress` leaving
it unchanged. -/
theorem stop_start_precondition_failures_witness :
    AppState.stop_recording env0 s0 = (.error .NoRecordingInProgress, s0) :=
  (stop_start_precondition_failures s0 (Reachable.boot Settings.default disk0) env0).1
    (Or.inl (by decide))

/-- C4: with post-processing enabled and a non-empty template, a failed
LLM call does not fail the session — `stop()` succeeds, the raw
transcript is substituted as the final output returned to the caller,
and the status concludes at `Ready`.  (The log line accompanying the
absorbed failure is an external side effect and is not modelled.) -/
theorem llm_failure_falls_back_to_transcript (env : Env) (s : AppState) (mode : Mode)
    (t : String) (e : AppError)
    (hrec : s.recording = true)
    (hmode : s.stopMid.get_active_mode = some mode)
    (hai : mode.ai_processing = true)
    (hpt : mode.prompt_template.isEmpty = false)
    (hsave : env.audioSave = .ok ())
    (hstt : AppState.transcribe env s.stopMid env.samples mode = .ok t)
    (hllm : AppState.process_with_llm env s.stopMid t mode = .error e) :
    AppState.stop_recording env s =
      (.ok t, { s with recording := false, status := RecordingStatus.Ready }) := by
  have hrecT : s.is_recording = true := hrec
  have hp : AppState.process_recording env env.samples s.stopMid =
      (.ok t, { s.stopMid with status := RecordingStatus.Ready }) := by
    simp [AppState.process_recording, hmode, hsave, hstt, hai, hpt, hllm]
  unfold AppState.stop_recording
  rw [hrecT]
  simp only [Bool.not_true, Bool.false_eq_true, if_false]
  rw [hp]
  rfl

/-- C4, witness: a concrete recording under `modeAi` with the LLM
backend down still stops successfully and returns the raw transcript. -/
theorem llm_failure_falls_back_to_transcript_witness :
    AppState.stop_recording env0 recStateAi =
      (.ok "hello", { recStateAi with recording := false, status := RecordingStatus.Ready }) :=
  llm_failure_falls_back_to_transcript env0 recStateAi modeAi "hello"
    (.Completion "connection refused") rfl (by decide) rfl (by decide) rfl
    (by decide) (by decide)

/-- A successful pipeline run determines the output: the active mode
resolved, the samples transcribed, and the final output is either the
raw transcript or a successful LLM completion of it. -/
theorem process_recording_ok_output (env : Env) (samples : List ℚ) (s : AppState)
    (out : String) (s2 : AppState)
    (h : AppState.process_recording env samples s = (.ok out, s2)) :
    ∃ mode transcript,
      s.get_active_mode = some mode ∧
      AppState.transcribe env s samples mode = .ok transcript ∧
      (out = transcript ∨
        AppState.process_with_llm env s transcript mode = .ok out) := by
  cases hm : s.get_active_mode with
  | none => simp [AppState.process_recording, hm] at h
  | some mode =>
    cases ha : env.audioSave with
    | error e => simp [AppState.process_recording, hm, ha] at h
    | ok u =>
      cases ht : AppState.transcribe env s samples mode with
      | error e => simp [AppState.process_recording, hm, ha, ht] at h
      | ok t =>
        refine ⟨mode, t, rfl, ht, ?_⟩
        simp only [AppState.process_recording, hm, ha, ht, Prod.mk.injEq,
          Except.ok.injEq] at h
        by_cases hcond : mode.ai_processing && !mode.prompt_template.isEmpty
        · rw [if_pos hcond] at h
          cases hl : AppState.process_with_llm env s t mode with
          | error e =>
            rw [hl] at h
            simp at h
            exact Or.inl h.1.symm
          | ok r =>
            rw [hl] at h
            simp at h
            exact Or.inr (congrArg Except.ok h.1)
        · rw [if_neg hcond] at h
          exact Or.inl h.1.symm

/-- C6, counterexample: when transcription recognizes no segments the
pipeline succeeds with an empty transcript, so `stop()` completes
reporting success with an empty final output — the claimed
non-emptiness invariant does not hold on the code. -/
theorem success_with_empty_output_counterexample :
    AppState.stop_recording envNoSpeech recStateVt =
      (.ok "", { recStateVt with recording := false, status := RecordingStatus.Ready }) ∧
    ("" : String).length = 0 := by
  decide

/-- C6, amended: whenever `stop()` completes reporting success, the
final output is the raw transcript produced by the STT provider, or a
successful LLM completion of it; the output is therefore exactly as
empty or non-empty as those texts — success does not guarantee a
non-empty output. -/
theorem stop_success_output_source (env : Env) (s : AppState) (out : String)
    (h : (AppState.stop_recording env s).1 = .ok out) :
    ∃ mode transcript,
      s.stopMid.get_active_mode = some mode ∧
      AppState.transcribe env s.stopMid env.samples mode = .ok transcript ∧
      (out = transcript ∨
        AppState.process_with_llm env s.stopMid transcript mode = .ok out) := by
  cases hrecb : s.recording with
  | false =>
    have hisF : s.is_recording = false := hrecb
    simp [AppState.stop_recording, hisF] at h
  | true =>
    have hres := stop_recording_result env s hrecb
    rw [h] at hres
    cases hp : AppState.process_recording env env.samples s.stopMid with
    | mk r s2 =>
      rw [hp] at hres
      simp at hres
      exact process_recording_ok_output env env.samples s.stopMid out s2
        (by rw [hp, ← hres])

/-- C6, witness: the amended statement applied to a concrete successful
stop whose output is the recognized transcript `hello`. -/
theorem stop_success_output_source_witness :
    ∃ mode transcript,
      recStateVt.stopMid.get_active_mode = some mode ∧
      AppState.transcribe env0 recStateVt.stopMid env0.samples mode = .ok transcript ∧
      ("hello" = transcript ∨
        AppState.process_with_llm env0 recStateVt.stopMid transcript mode = .ok "hello") :=
  stop_success_output_source env0 recStateVt "hello" (by decide)

/-- The recognized segments of the artifact counterexample: a blank
audio marker followed by real speech. -/
def artifactSegs : List (Except AppError String) :=
  [.ok "[BLANK_AUDIO]", .ok " hi"]

/-- Environment whose whisper.cpp run recognizes `artifactSegs`. -/
def envArtifact : Env :=
  { env0 with whisperSegments := artifactSegs }

/-- Modelled from the spec: the concatenation the claim describes —
every recognized segment classified as a non-speech artifact is dropped
before the remaining segments are concatenated in recognition order with
no added separators, and the result is trimmed (spec sections 4.5). -/
def filtered_collect (segs : List (Except AppError String)) : String :=
  trimStr (String.join
    ((segs.filterMap okSegmentText).filter (fun t => !isNonSpeechArtifact t)))

/-- C3, counterexample: the STT path of `providers/stt.rs` applies no
artifact filter — a recognized `[BLANK_AUDIO]` segment, an artifact by
the fixed vocabulary, survives into the final transcript, which
therefore differs from the filtered concatenation the claim requires. -/
theorem artifact_not_filtered_counterexample :
    whisperCpp_transcribe envArtifact = .ok "[BLANK_AUDIO] hi" ∧
    isNonSpeechArtifact "[BLANK_AUDIO]" = true ∧
    filtered_collect artifactSegs = "hi" ∧
    whisperCpp_transcribe envArtifact ≠ .ok (filtered_collect artifactSegs) := by
  decide

/-- Every segment loop of the embedded provider appends each successful
segment to the accumulator unchanged. -/
theorem foldl_append_segments (segs : List (Except AppError String)) (acc : String) :
    segs.foldl
        (fun acc r =>
          match r with
          | .ok segment => acc ++ segment
          | .error _ => acc)
        acc
      = acc ++ String.join (segs.filterMap okSegmentText) := by
  induction segs generalizing acc with
  | nil =>
    apply String.ext
    simp
  | cons hd tl ih =>
    cases hd with
    | ok seg =>
      rw [List.foldl_cons, ih]
      apply String.ext
      simp [okSegmentText, List.append_assoc]
    | error e =>
      rw [List.foldl_cons, ih]
      simp [okSegmentText]

/-- C3, amended: no artifact filtering happens — every successfully
recognized segment, non-speech artifacts included, is concatenated in
recognition order with no added separators, and the final text is
trimmed of leading and trailing whitespace. -/
theorem segments_concatenated_unfiltered :
    (∀ segs : List (Except AppError String),
      collect_segments segs = trimStr (String.join (segs.filterMap okSegmentText))) ∧
    collect_segments artifactSegs = "[BLANK_AUDIO] hi" := by
  constructor
  · intro segs
    unfold collect_segments
    rw [foldl_append_segments, String.empty_append]
  · decide

/-- C5: the prompt renderer substitutes the transcript and language
placeholders unconditionally; with a context it strips the conditional
block delimiters and substitutes the inner context placeholder, without
one it removes the whole block including multi-line inner content; the
result is trimmed.  Verified on the spec examples and a multi-line
block. -/
theorem render_prompt_examples :
    render_prompt "\x7b\x7btranscript\x7d\x7d / \x7b\x7blanguage\x7d\x7d" "hi" none "en"
        = "hi / en" ∧
    render_prompt
        "\x7b\x7b#if context\x7d\x7dC:\x7b\x7bcontext\x7d\x7d\x7b\x7b/if\x7d\x7dT:\x7b\x7btranscript\x7d\x7d"
        "hi" (some "ctx") "en" = "C:ctxT:hi" ∧
    render_prompt
        "\x7b\x7b#if context\x7d\x7dC:\x7b\x7bcontext\x7d\x7d\x7b\x7b/if\x7d\x7dT:\x7b\x7btranscript\x7d\x7d"
        "hi" none "en" = "T:hi" ∧
    render_prompt
        "\x7b\x7b#if context\x7d\x7d\nContext:\n\x7b\x7bcontext\x7d\x7d\n\x7b\x7b/if\x7d\x7d\nT:\x7b\x7btranscript\x7d\x7d"
        "hi" none "en" = "T:hi" ∧
    render_prompt
        "\x7b\x7b#if context\x7d\x7d\nContext:\n\x7b\x7bcontext\x7d\x7d\n\x7b\x7b/if\x7d\x7d\nT:\x7b\x7btranscript\x7d\x7d"
        "hi" (some "ctx") "en" = "Context:\nctx\n\nT:hi" := by
  decide

/-- C7: constructing the cloud OpenAI STT provider with no credential
available fails with the missing-credential error (realized in the code
as the `Provider` error asking for an API key) during the pure
construction step — no provider handle exists, so the network-facing
`transcribe` can never run. -/
theorem missing_credential_fails_before_network (env : Env) (model : String)
    (server_url : Option String) :
    create_stt_provider env SttProvider.OpenAI model none server_url =
      .error (.Provider "OpenAI STT requires an API key. Add it in Settings.") := by
  rfl

/-- C8: switching to a key absent from the registry fails with
`ModeNotFound`, leaves the whole state unchanged and writes nothing to
disk; switching to a present key sets both the in-memory active mode key
and the settings copy of it to that key. -/
theorem set_active_mode_spec (env : Env) (key : String) (s : AppState) :
    (s.modes.lookup key = none →
      AppState.set_active_mode env key s =
        ⟨.error (.ModeNotFound key), s, none⟩) ∧
    (∀ mode, s.modes.lookup key = some mode →
      (AppState.set_active_mode env key s).state.active_mode_key = key ∧
      (AppState.set_active_mode env key s).state.settings.active_mode_key = key) := by
  constructor
  · intro hk
    simp [AppState.set_active_mode, hk]
  · intro mode hk
    have hkn : (s.modes.lookup key).isNone = false := by rw [hk]; rfl
    simp only [AppState.set_active_mode, hkn, Bool.false_eq_true, if_false]
    cases env.saveSettings <;> simp

/-- C8, witness: on a concrete state, a missing key is rejected without
mutation and a present key becomes the active mode key. -/
theorem set_active_mode_spec_witness :
    AppState.set_active_mode env0 "missing" recStateVt =
      ⟨.error (.ModeNotFound "missing"), recStateVt, none⟩ ∧
    (AppState.set_active_mode env0 "voice_to_text" recStateVt).state.active_mode_key =
      "voice_to_text" :=
  ⟨(set_active_mode_spec env0 "missing" recStateVt).1 (by decide),
    ((set_active_mode_spec env0 "voice_to_text" recStateVt).2 modePlain (by decide)).1⟩

/-- Inserting parsed custom modes over a registry never removes a
resolvable key. -/
theorem fold_insert_preserves_lookup (k : String) :
    ∀ (entries : List (Except AppError Mode)) (m : List (String × Mode)),
      (m.lookup k).isSome = true →
      ((entries.foldl
          (fun m r =>
            match r with
            | .ok mode => insertMode m mode.key mode
            | .error _ => m)
          m).lookup k).isSome = true := by
  intro entries
  induction entries with
  | nil => intro m hm; simpa using hm
  | cons hd tl ih =>
    intro m hm
    rw [List.foldl_cons]
    cases hd with
    | ok mode =>
      apply ih
      by_cases hk : (k == mode.key)
      · simp [insertMode, List.lookup, hk]
      · simp [insertMode, List.lookup, hk, hm]
    | error e => exact ih m hm

/-- Every successfully loaded registry resolves the key
`voice_to_text`, because the built-in modes inserted first contain it
and custom insertions only ever add or replace bindings. -/
theorem load_modes_contains_voice_to_text (d : ModesDisk)
    (modes : List (String × Mode)) (h : Modes.load_modes d = .ok modes) :
    (modes.lookup "voice_to_text").isSome = true := by
  have hbase : ((create_builtin_modes.foldl
      (fun m mode => insertMode m mode.key mode) []).lookup "voice_to_text").isSome
        = true := by decide
  unfold Modes.load_modes at h
  by_cases hd : d.dirExists
  · rw [if_pos hd] at h
    cases he : d.entries with
    | error e => rw [he] at h; cases h
    | ok entries =>
      rw [he] at h
      injection h with h
      rw [← h]
      exact fold_insert_preserves_lookup "voice_to_text" entries _ hbase
  · rw [if_neg hd] at h
    cases hw : d.writeBack with
    | error e => rw [hw] at h; cases h
    | ok u =>
      rw [hw] at h
      injection h with h
      rw [← h]
      exact hbase

/-- C9: whenever the startup `load_modes` completes successfully, the
active mode key resolves in the registry — `get_active_mode` returns
`some` — because a saved key that no longer resolves is replaced by
`voice_to_text` and the merged registry always contains that key. -/
theorem active_mode_resolves_after_load (d : ModesDisk) (s : AppState)
    (h : (AppState.load_modes d s).1 = .ok ()) :
    (AppState.load_modes d s).2.get_active_mode.isSome = true := by
  cases hl : Modes.load_modes d with
  | error e => simp [AppState.load_modes, hl] at h
  | ok modes =>
    have hvt := load_modes_contains_voice_to_text d modes hl
    by_cases hk : (modes.lookup s.active_mode_key).isNone
    · simp [AppState.load_modes, hl, hk, AppState.get_active_mode, hvt]
    · simp only [AppState.load_modes, hl, hk, Bool.false_eq_true, if_false]
      simp only [AppState.get_active_mode]
      cases hx : modes.lookup s.active_mode_key with
      | none => rw [hx] at hk; simp at hk
      | some mode => simp [hx] at hk ⊢

/-- C9, witness: a successful first boot resolves the active mode. -/
theorem active_mode_resolves_after_load_witness :
    ((AppState.new Settings.default).load_modes disk0).2.get_active_mode.isSome = true :=
  active_mode_resolves_after_load disk0 (AppState.new Settings.default) (by decide)

/-- The clamp keeps its value between the bounds whenever the bounds are
ordered. -/
theorem clampQ_bounds (x lo hi : ℚ) (h : lo ≤ hi) :
    lo ≤ clampQ x lo hi ∧ clampQ x lo hi ≤ hi := by
  unfold clampQ
  split_ifs with h1 h2
  · exact ⟨le_refl lo, h⟩
  · exact ⟨h, le_refl hi⟩
  · exact ⟨not_lt.mp h1, not_lt.mp h2⟩

/-- Truncation toward zero of a value inside the 16-bit range stays
inside the 16-bit range. -/
theorem truncQ_bounds (q : ℚ) (hlo : -32768 ≤ q) (hhi : q ≤ 32767) :
    -32768 ≤ truncQ q ∧ truncQ q ≤ 32767 := by
  have hfloor : (⌊(32767 : ℚ)⌋ : ℤ) = 32767 := by
    rw [show ((32767 : ℚ)) = ((32767 : ℤ) : ℚ) by norm_num, Int.floor_intCast]
  have hceil : (⌈(-32768 : ℚ)⌉ : ℤ) = -32768 := by
    rw [show ((-32768 : ℚ)) = ((-32768 : ℤ) : ℚ) by norm_num, Int.ceil_intCast]
  unfold truncQ
  split_ifs with h0
  · constructor
    · have : (0 : ℤ) ≤ ⌊q⌋ := Int.floor_nonneg.mpr h0
      omega
    · calc ⌊q⌋ ≤ ⌊(32767 : ℚ)⌋ := Int.floor_le_floor hhi
        _ = 32767 := hfloor
  · constructor
    · calc (-32768 : ℤ) = ⌈(-32768 : ℚ)⌉ := hceil.symm
        _ ≤ ⌈q⌉ := Int.ceil_le_ceil hlo
    · have hq : q ≤ 0 := le_of_lt (not_le.mp h0)
      have : ⌈q⌉ ≤ ⌈(0 : ℚ)⌉ := Int.ceil_le_ceil hq
      simp at this
      omega

/-- Every converted sample is the truncation of the clamped scaled
value, hence inside the signed 16-bit range. -/
theorem sampleAmplitude_bounds (s : ℚ) :
    -32768 ≤ sampleAmplitude s ∧ sampleAmplitude s ≤ 32767 := by
  have hq := clampQ_bounds (s * 32767) (-32768) 32767 (by norm_num)
  unfold sampleAmplitude
  exact truncQ_bounds _ hq.1 hq.2

/-- The writer loop emits exactly the per-sample conversions, in order. -/
theorem samples_to_wav_map (samples : List ℚ) :
    samples_to_wav samples = samples.map sampleAmplitude := by
  have h : ∀ (l : List ℚ) (acc : List ℤ),
      l.foldl (fun acc sample => acc ++ [sampleAmplitude sample]) acc
        = acc ++ l.map sampleAmplitude := by
    intro l
    induction l with
    | nil => intro acc; simp
    | cons hd tl ih => intro acc; simp [ih]
  simpa [samples_to_wav] using h samples []

/-- C10: for every list of samples, including values outside `[-1, 1]`,
the WAV conversion writes per sample the scaled-by-32767 value clamped
into `[-32768, 32767]` and truncated, so every written PCM sample lies
inside the signed 16-bit range — the conversion never overflows. -/
theorem samples_to_wav_clamped_in_range (samples : List ℚ) :
    samples_to_wav samples = samples.map sampleAmplitude ∧
    ∀ x ∈ samples_to_wav samples, -32768 ≤ x ∧ x ≤ 32767 := by
  refine ⟨samples_to_wav_map samples, ?_⟩
  intro x hx
  rw [samples_to_wav_map] at hx
  rcases List.mem_map.mp hx with ⟨s, _, rfl⟩
  exact sampleAmplitude_bounds s

/-- Concrete samples for the WAV conversion witness: a value above 1, a
value below -1, and an in-range value. -/
def wavSamples0 : List ℚ := [3 / 2, -2, 1 / 4]

/-- C10, witness: the range statement applied to the conversion of a
concrete out-of-range sample. -/
theorem samples_to_wav_clamped_in_range_witness :
    -32768 ≤ sampleAmplitude (3 / 2) ∧ sampleAmplitude (3 / 2) ≤ 32767 :=
  (samples_to_wav_clamped_in_range wavSamples0).2 (sampleAmplitude (3 / 2))
    (by rw [samples_to_wav_map]
        exact List.mem_map_of_mem sampleAmplitude (by simp [wavSamples0]))
